import Mathlib

set_option maxHeartbeats 1000000

/-!
Shallow embedding of `backend/main.py` (NeoHome smart-home backend).

Pure data is translated directly; the in-place mutations of the Python
`DeviceManager` become explicit state passing on `ManagerState`.  Machine
integers in the source are plain Python ints, so they are embedded as `Int`
with no wraparound.  `HTTPException` raises become `Except` errors; since in
the source every raise in `update_device` happens before the first `setattr`,
the error branches of the embedding return the input state unchanged, which
is the faithful translation of the in-place code.
-/

/-- Device kind tag: the `device_type` `Literal["light","thermostat","lock"]`
field of the pydantic models in `main.py`. -/
inductive DeviceType where
  | light
  | thermostat
  | lock
  deriving DecidableEq, Repr

/-- Devices: the tagged union `LightDevice | ThermostatDevice | LockDevice`.
Constructor arguments are, in order, the common `DeviceBase` fields
(`device_id`, `name`, `is_on`, `last_updated`) followed by the kind-specific
fields of the corresponding pydantic subclass. -/
inductive Device where
  | light (device_id name : String) (is_on : Bool) (last_updated : String)
      (brightness : Int) (color_temp : String)
  | thermostat (device_id name : String) (is_on : Bool) (last_updated : String)
      (target_temp current_temp : Int)
  | lock (device_id name : String) (is_on : Bool) (last_updated : String)
      (is_locked : Bool)
  deriving DecidableEq, Repr

/-- The `device_id` attribute common to all device models. -/
def Device.device_id : Device → String
  | .light i _ _ _ _ _ => i
  | .thermostat i _ _ _ _ _ => i
  | .lock i _ _ _ _ => i

/-- The kind tag of a device (`device_type` in the source). -/
def Device.device_type : Device → DeviceType
  | .light _ _ _ _ _ _ => .light
  | .thermostat _ _ _ _ _ _ => .thermostat
  | .lock _ _ _ _ _ => .lock

/-- The `is_on` attribute common to all device models. -/
def Device.is_on : Device → Bool
  | .light _ _ o _ _ _ => o
  | .thermostat _ _ o _ _ _ => o
  | .lock _ _ o _ _ => o

/-- The `last_updated` attribute common to all device models. -/
def Device.last_updated : Device → String
  | .light _ _ _ l _ _ => l
  | .thermostat _ _ _ l _ _ => l
  | .lock _ _ _ l _ => l

/-- The `brightness` attribute, present only on lights. -/
def Device.brightnessField : Device → Option Int
  | .light _ _ _ _ b _ => some b
  | _ => none

/-- The `target_temp` attribute, present only on thermostats. -/
def Device.targetTempField : Device → Option Int
  | .thermostat _ _ _ _ t _ => some t
  | _ => none

/-- The `current_temp` attribute, present only on thermostats. -/
def Device.currentTempField : Device → Option Int
  | .thermostat _ _ _ _ _ c => some c
  | _ => none

/-- The `is_locked` attribute, read as in `get_system_stats` where it is only
accessed on devices already filtered to kind `lock`. -/
def Device.lockedFlag : Device → Bool
  | .lock _ _ _ _ il => il
  | _ => true

/-- Replacement of only the `last_updated` field, all other fields kept. -/
def Device.withLastUpdated (d : Device) (lu : String) : Device :=
  match d with
  | .light i n o _ b c => .light i n o lu b c
  | .thermostat i n o _ t c => .thermostat i n o lu t c
  | .lock i n o _ il => .lock i n o lu il

/-- Python `str.split(sep)` on character lists: splitting the empty string
yields one empty part, and consecutive separators yield empty parts. -/
def splitOnChar (sep : Char) : List Char → List (List Char)
  | [] => [[]]
  | c :: rest =>
    if c = sep then [] :: splitOnChar sep rest
    else
      match splitOnChar sep rest with
      | [] => [[c]]
      | g :: gs => (c :: g) :: gs

/-- Python `v.split(sep)` for a one-character separator. -/
def pySplit (v : String) (sep : Char) : List String :=
  (splitOnChar sep v.toList).map String.mk

/-- Python `s.lower()` (character-wise, ASCII as used here). -/
def pyToLower (s : String) : String :=
  String.mk (s.toList.map Char.toLower)

/-- Python `s.replace('_', '-')` (character-wise, the separators are single
characters). -/
def pyReplaceUnderscore (s : String) : String :=
  String.mk (s.toList.map (fun c => if c = '_' then '-' else c))

/-- Python `part.replace('-','').replace('_','').isalnum()` from
`DeviceBase.validate_device_id`: strip hyphens and underscores, then require a
nonempty all-alphanumeric remainder (Python `isalnum` is `False` on `""`). -/
def strippedIsAlnum (p : String) : Bool :=
  let stripped := p.toList.filter (fun c => !(c = '-' || c = '_'))
  !stripped.isEmpty && stripped.all Char.isAlphanum

/-- The `validate_device_id` pydantic validator on `DeviceBase`: split on `/`,
require exactly three parts, require each part alphanumeric with
hyphens/underscores, and normalize with `v.lower().replace('_', '-')`. -/
def validate_device_id (v : String) : Except String String :=
  let parts := pySplit v '/'
  if parts.length ≠ 3 then
    .error "Device ID must follow format: location/type/instance"
  else if parts.all strippedIsAlnum then
    .ok (pyReplaceUnderscore (pyToLower v))
  else
    .error "Device ID parts must be alphanumeric with hyphens/underscores only"

/-- The `DeviceUpdate` pydantic model: a sparse patch, `none` meaning the field
was not provided (`exclude_unset` semantics). -/
structure DeviceUpdate where
  is_on : Option Bool := none
  brightness : Option Int := none
  color_temp : Option String := none
  target_temp : Option Int := none
  current_temp : Option Int := none
  is_locked : Option Bool := none
  deriving DecidableEq, Repr

/-- One pydantic range-validation error: the offending field name, the violated
`ge`/`le` limit, and the submitted value. -/
structure ValidationErr where
  field : String
  limit : Int
  value : Int
  deriving DecidableEq, Repr

/-- Range check for one optional numeric field of `DeviceUpdate`, mirroring the
pydantic `Field(None, ge=lo, le=hi)` constraint. -/
def checkBound (name : String) (lo hi : Int) : Option Int → Except ValidationErr Unit
  | none => .ok ()
  | some v =>
    if v < lo then .error ⟨name, lo, v⟩
    else if hi < v then .error ⟨name, hi, v⟩
    else .ok ()

/-- Construction-time validation of a `DeviceUpdate` request body: pydantic
checks each constrained field in declaration order. -/
def validateDeviceUpdate (u : DeviceUpdate) : Except ValidationErr DeviceUpdate :=
  match checkBound "brightness" 0 100 u.brightness with
  | .error e => .error e
  | .ok _ =>
    match checkBound "target_temp" 16 30 u.target_temp with
    | .error e => .error e
    | .ok _ =>
      match checkBound "current_temp" (-20) 50 u.current_temp with
      | .error e => .error e
      | .ok _ => .ok u

/-- The `TelemetryData` pydantic model.  The float `value` is embedded as a
rational; the wall-clock `timestamp` field is not modelled (no claim reads
it). -/
structure TelemetryData where
  device_id : String
  sensor_type : String
  value : Rat
  unit : String
  deriving DecidableEq, Repr

/-- Python `int(x)` on a float/rational: truncation toward zero. -/
def pyInt (q : Rat) : Int :=
  Int.tdiv q.num (q.den : Int)

/-- One WebSocket connection.  `working` models whether a `send_text` on this
channel succeeds (`True`) or raises (`False`), which is the only behavior of a
channel the backend observes. -/
structure Channel where
  id : Nat
  working : Bool
  deriving DecidableEq, Repr

/-- Messages sent over a WebSocket connection by the backend. -/
inductive WsMessage where
  | initial_state (devices : List Device)
  | device_update (device_id : String) (device : Device)
  deriving DecidableEq, Repr

/-- The mutable state of the Python `DeviceManager` (plus, implicitly, the
order-preserving `dict` of devices as an association list — Python dicts
preserve insertion order). -/
structure ManagerState where
  devices : List (String × Device)
  telemetry_history : List TelemetryData
  websocket_connections : List Channel
  deriving DecidableEq, Repr

/-- `self.devices.get(device_id)` — the `get_device` lookup. -/
def lookupDevice : List (String × Device) → String → Option Device
  | [], _ => none
  | (k, d) :: rest, i => if k = i then some d else lookupDevice rest i

/-- In-place overwrite of the entry for an existing key (Python dict keeps the
key's position when an existing key is reassigned; `update_device` only ever
writes to existing keys). -/
def setDevice : List (String × Device) → String → Device → List (String × Device)
  | [], _, _ => []
  | (k, d) :: rest, i, x =>
    if k = i then (k, x) :: setDevice rest i x else (k, d) :: setDevice rest i x

/-- The `HTTPException` raised by the endpoints: status code and detail. -/
structure HTTPException where
  status_code : Nat
  detail : String
  deriving DecidableEq, Repr

/-- The send loop of `broadcast_device_update`: attempt `send_text` on each
connection in order; a successful send delivers the message and keeps the
connection in `active_connections`, a failing send delivers nothing and drops
it.  Returns the new connection list and the delivered `(channel id, message)`
pairs in delivery order. -/
def broadcastLoop (i : String) (d : Device) :
    List Channel → List Channel × List (Nat × WsMessage)
  | [] => ([], [])
  | c :: rest =>
    let r := broadcastLoop i d rest
    if c.working then (c :: r.1, (c.id, WsMessage.device_update i d) :: r.2)
    else r

/-- `DeviceManager.broadcast_device_update`: no-op when the connection list is
empty (`if self.websocket_connections:`), otherwise the send loop above. -/
def broadcast_device_update (conns : List Channel) (i : String) (d : Device) :
    List Channel × List (Nat × WsMessage) :=
  if conns.isEmpty then (conns, []) else broadcastLoop i d conns

/-- The kind-specific field-permission check of `update_device`: `True` exactly
when the provided patch fields hit the device kind's rejected set. -/
def crossKindCheck (d : Device) (u : DeviceUpdate) : Bool :=
  match d.device_type with
  | .light => u.target_temp.isSome || u.current_temp.isSome
  | .thermostat => u.brightness.isSome || u.color_temp.isSome
  | .lock => u.brightness.isSome || u.color_temp.isSome || u.target_temp.isSome

/-- The `detail` string of the 400 `HTTPException` raised for each kind. -/
def kindRejectDetail : DeviceType → String
  | .light => "Cannot set temperature on light device"
  | .thermostat => "Cannot set brightness on thermostat device"
  | .lock => "Cannot set these properties on lock device"

/-- The `setattr` loop of `update_device`: each provided field is written when
the device has that attribute (`hasattr`) and silently skipped otherwise;
`update_data` always carries `last_updated = "Just now"`. -/
def applyFields (d : Device) (u : DeviceUpdate) : Device :=
  match d with
  | .light i n o _ b c =>
      .light i n (u.is_on.getD o) "Just now" (u.brightness.getD b) (u.color_temp.getD c)
  | .thermostat i n o _ t c =>
      .thermostat i n (u.is_on.getD o) "Just now" (u.target_temp.getD t) (u.current_temp.getD c)
  | .lock i n o _ il =>
      .lock i n (u.is_on.getD o) "Just now" (u.is_locked.getD il)

/-- `DeviceManager.update_device`: look up the device (404 if absent), reject
cross-kind fields (400), otherwise apply the provided fields plus the
`last_updated` stamp, broadcast, and return the updated device.  The result
also carries the post-call manager state and the broadcast delivery log. -/
def update_device (s : ManagerState) (device_id : String) (u : DeviceUpdate) :
    ManagerState × List (Nat × WsMessage) × Except HTTPException Device :=
  match lookupDevice s.devices device_id with
  | none => (s, [], .error ⟨404, "Device not found"⟩)
  | some d =>
    if crossKindCheck d u then
      (s, [], .error ⟨400, kindRejectDetail d.device_type⟩)
    else
      let d1 := applyFields d u
      let devices1 := setDevice s.devices device_id d1
      let b := broadcast_device_update s.websocket_connections device_id d1
      ({ devices := devices1, telemetry_history := s.telemetry_history,
         websocket_connections := b.1 }, b.2, .ok d1)

/-- Errors surfaced by the PATCH endpoint: a pydantic 422 on the request body,
or an `HTTPException` from `update_device`. -/
inductive PatchError where
  | validation (e : ValidationErr)
  | http (e : HTTPException)
  deriving DecidableEq, Repr

/-- The `PATCH /api/devices/{device_id}` path: FastAPI first validates the
request body into a `DeviceUpdate` (422 on failure, before any state is
touched), then calls `update_device`. -/
def patchDevice (s : ManagerState) (device_id : String) (u : DeviceUpdate) :
    ManagerState × List (Nat × WsMessage) × Except PatchError Device :=
  match validateDeviceUpdate u with
  | .error e => (s, [], .error (.validation e))
  | .ok u1 =>
    let r := update_device s device_id u1
    (r.1, r.2.1, r.2.2.mapError .http)

/-- `POST /api/telemetry` (`ingest_telemetry`): 404 for unknown device ids,
append to the telemetry history, and for a thermostat with sensor type
`"temperature"` write `current_temp = int(value)` and `last_updated` directly
on the device and broadcast. -/
def ingest_telemetry (s : ManagerState) (t : TelemetryData) :
    ManagerState × List (Nat × WsMessage) × Except HTTPException String :=
  match lookupDevice s.devices t.device_id with
  | none => (s, [], .error ⟨404, "Device not found"⟩)
  | some d =>
    let s1 : ManagerState :=
      { s with telemetry_history := s.telemetry_history ++ [t] }
    match d with
    | .thermostat i n o _ tt _ =>
      if t.sensor_type = "temperature" then
        let d1 := Device.thermostat i n o "Just now" tt (pyInt t.value)
        let devices1 := setDevice s1.devices t.device_id d1
        let b := broadcast_device_update s1.websocket_connections t.device_id d1
        ({ devices := devices1, telemetry_history := s1.telemetry_history,
           websocket_connections := b.1 }, b.2, .ok "success")
      else (s1, [], .ok "success")
    | _ => (s1, [], .ok "success")

/-- One thermostat step of the simulation loop body in `simulate_real_sensors`:
when `target_temp - current_temp` is nonzero, move `current_temp` one degree
toward the target and stamp `last_updated`; other devices are untouched. -/
def tickDevice : Device → Device
  | .thermostat i n o lu tt ct =>
    if tt - ct ≠ 0 then
      .thermostat i n o "Just now" tt (ct + (if 0 < tt - ct then 1 else -1))
    else .thermostat i n o lu tt ct
  | d => d

/-- The per-device body of one simulation pass, threading telemetry history and
the connection list (a broadcast may prune failed channels mid-pass). -/
def tickFold (devs : List (String × Device)) (tel : List TelemetryData)
    (conns : List Channel) :
    List (String × Device) × List TelemetryData × List Channel × List (Nat × WsMessage) :=
  match devs with
  | [] => ([], tel, conns, [])
  | (k, d) :: rest =>
    let d1 := tickDevice d
    if d1 = d then
      let r := tickFold rest tel conns
      ((k, d) :: r.1, r.2.1, r.2.2.1, r.2.2.2)
    else
      let ct1 := (d1.currentTempField).getD 0
      let tel1 := tel ++ [⟨k, "temperature", (ct1 : Rat), "celsius"⟩]
      let b := broadcast_device_update conns k d1
      let r := tickFold rest tel1 b.1
      ((k, d1) :: r.1, r.2.1, r.2.2.1, b.2 ++ r.2.2.2)

/-- One full pass of the `simulate_real_sensors` loop body over the registry:
every thermostat not at its target is stepped one degree toward it, a
telemetry record is appended, and the change is broadcast. -/
def simulate_tick (s : ManagerState) : ManagerState × List (Nat × WsMessage) :=
  let r := tickFold s.devices s.telemetry_history s.websocket_connections
  ({ devices := r.1, telemetry_history := r.2.1, websocket_connections := r.2.2.1 }, r.2.2.2)

/-- `get_all_devices`: the values of the device map in insertion order. -/
def get_all_devices (s : ManagerState) : List Device :=
  s.devices.map Prod.snd

/-- `get_devices_by_type`: filter the registry values by kind tag. -/
def get_devices_by_type (s : ManagerState) (t : DeviceType) : List Device :=
  (get_all_devices s).filter (fun d => d.device_type == t)

/-- Python 3 `round` on an exact quotient `total / n`: round half to even.
For the integer sums and small divisors this backend produces, the float
division in the source is exact at every half-integer and never crosses a
rounding boundary, so this is the value `round(sum(...) / len(...))`
computes. -/
def pyRoundHalfEven (total : Int) (n : Nat) : Int :=
  if 2 * Int.emod total (n : Int) < (n : Int) then Int.ediv total (n : Int)
  else if (n : Int) < 2 * Int.emod total (n : Int) then Int.ediv total (n : Int) + 1
  else if Int.ediv total (n : Int) % 2 = 0 then Int.ediv total (n : Int)
  else Int.ediv total (n : Int) + 1

/-- The `current_temp` readings of all thermostats in the registry. -/
def thermostat_current_temps (s : ManagerState) : List Int :=
  (get_devices_by_type s .thermostat).filterMap Device.currentTempField

/-- The `avg_temp` intermediate of `get_system_stats`:
`round(sum(t.current_temp for t in thermostats) / len(thermostats)) if thermostats else 0`. -/
def avg_temp (s : ManagerState) : Int :=
  let temps := thermostat_current_temps s
  if temps.isEmpty then 0 else pyRoundHalfEven temps.sum temps.length

/-- The `DeviceStats` response model. -/
structure DeviceStats where
  lighting : String
  temperature : String
  security : String
  total_devices : Nat
  online_devices : Nat
  deriving DecidableEq, Repr

/-- `DeviceManager.get_system_stats`. -/
def get_system_stats (s : ManagerState) : DeviceStats :=
  let lights := get_devices_by_type s .light
  let active_lights := (lights.filter (fun d => d.is_on)).length
  let locks := get_devices_by_type s .lock
  let all_locked := if locks.isEmpty then true else locks.all Device.lockedFlag
  { lighting := toString active_lights ++ "/" ++ toString lights.length ++ " Active"
    temperature := toString (avg_temp s) ++ "°C Average"
    security := if all_locked then "All Locked" else "Some Unlocked"
    total_devices := s.devices.length
    online_devices := s.devices.length }

/-- The fixed seed set of `_initialize_demo_devices`, in insertion order, with
every default field spelled out (`is_on = true`, `last_updated = "Just now"`
unless overridden). -/
def demoDevices : List Device :=
  [ Device.lock "living-room/lock/front-door-01" "Front Door Lock" true "Just now" true,
    Device.light "living-room/light/ceiling-01" "Living Room Light" true "Just now" 65 "white",
    Device.thermostat "living-room/thermostat/wall-01" "Smart Thermostat" true "Just now" 22 21,
    Device.light "kitchen/light/ceiling-01" "Kitchen Ceiling Light" true "Just now" 80 "warm-white",
    Device.light "kitchen/light/under-cabinet-01" "Under-Cabinet Lights" false "Just now" 45 "cool-white",
    Device.light "bedroom/light/ceiling-01" "Bedroom Main Light" false "Just now" 30 "warm",
    Device.light "bedroom/light/bedside-01" "Bedside Lamp" true "Just now" 25 "warm",
    Device.thermostat "bedroom/thermostat/wall-01" "Bedroom Thermostat" true "Just now" 20 19,
    Device.light "bathroom/light/vanity-01" "Bathroom Vanity Light" true "Just now" 90 "cool",
    Device.light "bathroom/light/shower-01" "Shower Light" false "Just now" 70 "white" ]

/-- The manager state right after `DeviceManager.__init__`: the ten demo
devices keyed by their ids, no telemetry, no connections. -/
def demoState : ManagerState :=
  { devices := demoDevices.map (fun d => (d.device_id, d)),
    telemetry_history := [],
    websocket_connections := [] }

/-- Boolean substring test on character lists (used to state that an error
detail does or does not mention a given name). -/
def charsInfix (needle : List Char) : List Char → Bool
  | [] => needle.isEmpty
  | c :: rest => needle.isPrefixOf (c :: rest) || charsInfix needle rest

/-- Substring test on strings. -/
def strContains (hay needle : String) : Bool :=
  charsInfix needle.toList hay.toList

/-!
Cooperative-interleaving trace model.  In the source, `websocket_endpoint`
appends the accepted socket to `websocket_connections` and initiates the
`initial_state` send with no `await` between the two, so under asyncio's
cooperative scheduling no broadcast task can run between registration and the
snapshot send, and messages on one channel are delivered in initiation order.
A trace is therefore a sequence of atomic actions: a client connecting, a
PATCH request, a telemetry POST, or one simulation pass. -/
inductive TraceAction where
  | connect (cid : Nat)
  | patchReq (device_id : String) (u : DeviceUpdate)
  | ingestReq (t : TelemetryData)
  | tick
  deriving DecidableEq, Repr

/-- One atomic action: returns the new manager state and the `(channel id,
message)` deliveries the action initiated, in order. -/
def stepAction (s : ManagerState) : TraceAction → ManagerState × List (Nat × WsMessage)
  | .connect cid =>
    let s1 : ManagerState :=
      { s with websocket_connections := s.websocket_connections ++ [⟨cid, true⟩] }
    (s1, [(cid, WsMessage.initial_state (get_all_devices s1))])
  | .patchReq i u =>
    let r := patchDevice s i u
    (r.1, r.2.1)
  | .ingestReq t =>
    let r := ingest_telemetry s t
    (r.1, r.2.1)
  | .tick => simulate_tick s

/-- Run a trace of atomic actions, collecting all deliveries in order. -/
def runTrace (s : ManagerState) : List TraceAction → ManagerState × List (Nat × WsMessage)
  | [] => (s, [])
  | a :: rest =>
    let r1 := stepAction s a
    let r2 := runTrace r1.1 rest
    (r2.1, r1.2 ++ r2.2)

/-- The messages delivered to one channel id, in delivery order. -/
def channelMsgs (log : List (Nat × WsMessage)) (cid : Nat) : List WsMessage :=
  (log.filter (fun e => e.1 = cid)).map Prod.snd

/-- The ids of the channels in a connection list. -/
def connIds (l : List Channel) : List Nat :=
  l.map Channel.id

/-- Definition following the spec's words (for comparison with the source's
`validate_device_id`): the character set the spec allows in an identifier
segment — lowercase alphanumeric plus hyphen and underscore. -/
def specAllowedChar (c : Char) : Bool :=
  c.isLower || c.isDigit || c = '-' || c = '_'

/-- Definition following the spec's words (for comparison with the stamp the
source actually writes): a shape check accepting only strings that start like
an ISO-8601 date-time, `YYYY-MM-DDT...`. -/
def specIsISO8601 (s : String) : Bool :=
  match s.toList with
  | y1 :: y2 :: y3 :: y4 :: '-' :: m1 :: m2 :: '-' :: d1 :: d2 :: 'T' :: rest =>
    [y1, y2, y3, y4, m1, m2, d1, d2].all Char.isDigit && !rest.isEmpty
  | _ => false

/-- The kind name used in the spec's wording of rejection errors. -/
def kindName : DeviceType → String
  | .light => "light"
  | .thermostat => "thermostat"
  | .lock => "lock"

/-- The patch predicate of claim C10 (amended): every provided field is absent
from the device's model and outside the kind's rejected set — for a light or a
thermostat only `is_locked` may be provided, for a lock only `current_temp`. -/
def hiddenNoRejectPatch (d : Device) (u : DeviceUpdate) : Prop :=
  match d.device_type with
  | .light => u.is_on = none ∧ u.brightness = none ∧ u.color_temp = none
      ∧ u.target_temp = none ∧ u.current_temp = none
  | .thermostat => u.is_on = none ∧ u.brightness = none ∧ u.color_temp = none
      ∧ u.target_temp = none ∧ u.current_temp = none
  | .lock => u.is_on = none ∧ u.brightness = none ∧ u.color_temp = none
      ∧ u.target_temp = none ∧ u.is_locked = none

/-! ## Helper lemmas -/

/-- The send loop keeps exactly the working channels and delivers the update
message to each of them once, in order. -/
theorem broadcastLoop_eq (i : String) (d : Device) (conns : List Channel) :
    broadcastLoop i d conns
      = (conns.filter (fun c => c.working),
         (conns.filter (fun c => c.working)).map
           (fun c => (c.id, WsMessage.device_update i d))) := by
  induction conns with
  | nil => rfl
  | cons c rest ih =>
    by_cases h : c.working <;> simp [broadcastLoop, ih, h]

/-- `broadcast_device_update` in closed form: working channels survive and each
receives the message exactly once. -/
theorem broadcast_eq (conns : List Channel) (i : String) (d : Device) :
    broadcast_device_update conns i d
      = (conns.filter (fun c => c.working),
         (conns.filter (fun c => c.working)).map
           (fun c => (c.id, WsMessage.device_update i d))) := by
  cases conns with
  | nil => rfl
  | cons c rest => exact broadcastLoop_eq i d (c :: rest)

/-- Overwriting an existing key is visible to lookup. -/
theorem lookupDevice_setDevice (l : List (String × Device)) (i : String) (x : Device)
    (h : lookupDevice l i ≠ none) :
    lookupDevice (setDevice l i x) i = some x := by
  induction l with
  | nil => exact absurd rfl h
  | cons p rest ih =>
    obtain ⟨k, d⟩ := p
    by_cases hk : k = i
    · simp [setDevice, lookupDevice, hk]
    · have h2 : lookupDevice rest i ≠ none := by simpa [lookupDevice, hk] using h
      simpa [setDevice, lookupDevice, hk] using ih h2

/-- Characterization of a successful `update_device` call: the device was
present, the kind check passed, the returned device is the field merge, the
stored map holds it, and the broadcast went to every working channel. -/
theorem update_device_ok_spec (s : ManagerState) (i : String) (u : DeviceUpdate)
    (s1 : ManagerState) (log : List (Nat × WsMessage)) (d : Device)
    (h : update_device s i u = (s1, log, .ok d)) :
    ∃ d0, lookupDevice s.devices i = some d0 ∧ crossKindCheck d0 u = false
      ∧ d = applyFields d0 u
      ∧ s1 = { devices := setDevice s.devices i d,
               telemetry_history := s.telemetry_history,
               websocket_connections := s.websocket_connections.filter (fun c => c.working) }
      ∧ log = (s.websocket_connections.filter (fun c => c.working)).map
          (fun c => (c.id, WsMessage.device_update i d)) := by
  cases hl : lookupDevice s.devices i with
  | none =>
    rw [update_device, hl] at h
    simp at h
  | some d0 =>
    rw [update_device, hl] at h
    dsimp only at h
    by_cases hc : crossKindCheck d0 u
    · simp [hc] at h
    · rw [if_neg hc, broadcast_eq] at h
      have hd : applyFields d0 u = d := by
        have h3 := congrArg (fun p => p.2.2) h
        simpa using h3
      subst hd
      have h1 := congrArg Prod.fst h
      have h2 := congrArg (fun p => p.2.1) h
      dsimp only at h1 h2
      exact ⟨d0, rfl, by simpa using hc, rfl, h1.symm, h2.symm⟩

/-! ## Claim C1 -/

/-- C1 (as stated, counterexample): a PATCH of `target_temp` on the demo lock
is rejected with a 400 error, but the error detail does not name the illegal
field (`target_temp`), contradicting the claim that the error names the
illegal field. -/
theorem c1_counterexample :
    (update_device demoState "living-room/lock/front-door-01"
        { target_temp := some 20 }).2.2
      = .error ⟨400, "Cannot set these properties on lock device"⟩
    ∧ strContains "Cannot set these properties on lock device" "target_temp" = false :=
  ⟨rfl, by decide⟩

/-- C1 (amended): for every device and every patch containing a field in the
device kind's rejected set, `update_device` fails with a 400 `BadRequest`
error whose detail names the device kind (though not necessarily the specific
field), and the manager state is returned entirely unchanged with no
broadcast — no partial application. -/
theorem c1_cross_kind_rejected (s : ManagerState) (i : String) (d : Device)
    (u : DeviceUpdate) (hl : lookupDevice s.devices i = some d)
    (hc : crossKindCheck d u = true) :
    update_device s i u = (s, [], .error ⟨400, kindRejectDetail d.device_type⟩)
    ∧ strContains (kindRejectDetail d.device_type) (kindName d.device_type) = true := by
  constructor
  · rw [update_device, hl]
    dsimp only
    rw [if_pos hc]
  · cases d <;> (dsimp only [Device.device_type]; decide)

/-- C1 witness: the amended theorem applied to the demo lock with a
`brightness` patch. -/
theorem c1_cross_kind_rejected_witness :
    update_device demoState "living-room/lock/front-door-01" { brightness := some 50 }
      = (demoState, [], .error ⟨400, "Cannot set these properties on lock device"⟩)
    ∧ strContains "Cannot set these properties on lock device" "lock" = true :=
  c1_cross_kind_rejected demoState "living-room/lock/front-door-01"
    (Device.lock "living-room/lock/front-door-01" "Front Door Lock" true "Just now" true)
    { brightness := some 50 } rfl rfl

/-! ## Claim C3 -/

/-- C3: after a successful `update_device`, the delivery log contains exactly
one `device_update` per working (live) channel, its payload is the returned
device, and the registry's post-mutation entry for the id equals that same
payload. -/
theorem c3_broadcast_exactly_once (s : ManagerState) (i : String) (u : DeviceUpdate)
    (s1 : ManagerState) (log : List (Nat × WsMessage)) (d : Device)
    (h : update_device s i u = (s1, log, .ok d)) :
    log = (s.websocket_connections.filter (fun c => c.working)).map
        (fun c => (c.id, WsMessage.device_update i d))
    ∧ lookupDevice s1.devices i = some d := by
  obtain ⟨d0, hl, hc, hd, hs1, hlog⟩ := update_device_ok_spec s i u s1 log d h
  refine ⟨hlog, ?_⟩
  rw [hs1]
  exact lookupDevice_setDevice s.devices i d (by simp [hl])

/-- The state used by the C3 witness: the demo registry with three connected
channels, the middle one failing. -/
def c3State : ManagerState :=
  { demoState with websocket_connections := [⟨1, true⟩, ⟨2, false⟩, ⟨3, true⟩] }

/-- The post-mutation device of the C3 witness. -/
def c3Dev : Device :=
  Device.light "living-room/light/ceiling-01" "Living Room Light" false "Just now" 65 "white"

/-- C3 witness: turning off the living-room light with three subscribers (one
broken) delivers exactly one update to each of the two working channels, with
the post-mutation device as payload. -/
theorem c3_broadcast_exactly_once_witness :
    (update_device c3State "living-room/light/ceiling-01" { is_on := some false }).2.1
      = [(1, WsMessage.device_update "living-room/light/ceiling-01" c3Dev),
         (3, WsMessage.device_update "living-room/light/ceiling-01" c3Dev)]
    ∧ lookupDevice
        (update_device c3State "living-room/light/ceiling-01" { is_on := some false }).1.devices
        "living-room/light/ceiling-01" = some c3Dev := by
  have h := c3_broadcast_exactly_once c3State "living-room/light/ceiling-01"
    { is_on := some false }
    (update_device c3State "living-room/light/ceiling-01" { is_on := some false }).1
    (update_device c3State "living-room/light/ceiling-01" { is_on := some false }).2.1
    c3Dev rfl
  exact ⟨h.1.trans rfl, h.2⟩

/-! ## Claim C7 -/

/-- C7: a failing channel neither blocks nor loses delivery to the other
channels (every working channel still receives exactly the one message), the
failing channel is dropped from the live set as a side effect of the
broadcast, and whether a mutation succeeds is independent of the channel set
(so channel failures never fail the mutation). -/
theorem c7_failure_isolated :
    ∀ (conns : List Channel) (i : String) (d : Device),
      (broadcast_device_update conns i d).1 = conns.filter (fun c => c.working)
      ∧ (broadcast_device_update conns i d).2
          = (conns.filter (fun c => c.working)).map
              (fun c => (c.id, WsMessage.device_update i d))
      ∧ ∀ (devs : List (String × Device)) (tel tel2 : List TelemetryData)
          (conns2 : List Channel) (i2 : String) (u : DeviceUpdate),
          (update_device ⟨devs, tel, conns⟩ i2 u).2.2.isOk
            = (update_device ⟨devs, tel2, conns2⟩ i2 u).2.2.isOk := by
  intro conns i d
  refine ⟨by rw [broadcast_eq], by rw [broadcast_eq], ?_⟩
  intro devs tel tel2 conns2 i2 u
  rw [update_device, update_device]
  cases lookupDevice devs i2 with
  | none => rfl
  | some d0 =>
    dsimp only
    by_cases hc : crossKindCheck d0 u
    · rw [if_pos hc, if_pos hc]
    · rw [if_neg hc, if_neg hc]

/-! ## Claim C9 -/

/-- C9 (as stated, counterexample): a successful mutation stamps the literal
string `"Just now"` as the last-update timestamp, which is not an ISO-8601
UTC time. -/
theorem c9_counterexample :
    ((update_device demoState "living-room/thermostat/wall-01"
        { target_temp := some 18 }).2.2.map Device.last_updated) = .ok "Just now"
    ∧ specIsISO8601 "Just now" = false :=
  ⟨rfl, by decide⟩

/-- C9 (amended): after every successful `update_device`, the returned device
and the stored device both carry `last_updated = "Just now"` (a constant
placeholder string, not the current UTC time). -/
theorem c9_last_updated_is_just_now (s : ManagerState) (i : String) (u : DeviceUpdate)
    (s1 : ManagerState) (log : List (Nat × WsMessage)) (d : Device)
    (h : update_device s i u = (s1, log, .ok d)) :
    d.last_updated = "Just now" ∧ lookupDevice s1.devices i = some d := by
  obtain ⟨d0, hl, hc, hd, hs1, hlog⟩ := update_device_ok_spec s i u s1 log d h
  constructor
  · rw [hd]; cases d0 <;> rfl
  · rw [hs1]
    exact lookupDevice_setDevice s.devices i d (by simp [hl])

/-- C9 witness: the amended theorem applied to the demo thermostat with a
`target_temp` patch. -/
theorem c9_last_updated_witness :
    (Device.thermostat "living-room/thermostat/wall-01" "Smart Thermostat"
        true "Just now" 18 21).last_updated = "Just now"
    ∧ lookupDevice
        (update_device demoState "living-room/thermostat/wall-01"
          { target_temp := some 18 }).1.devices
        "living-room/thermostat/wall-01"
      = some (Device.thermostat "living-room/thermostat/wall-01" "Smart Thermostat"
          true "Just now" 18 21) :=
  c9_last_updated_is_just_now demoState "living-room/thermostat/wall-01"
    { target_temp := some 18 } _ _ _ rfl

/-! ## Claim C10 -/

/-- C10 (as stated, counterexample): a patch whose only provided field
(`target_temp`) does not exist on the light's model does NOT succeed — it is
rejected with a 400 error, because `target_temp` is in the light kind's
rejected set. -/
theorem c10_counterexample :
    (update_device demoState "living-room/light/ceiling-01"
        { target_temp := some 20 }).2.2
      = .error ⟨400, "Cannot set temperature on light device"⟩ := rfl

/-- C10 (amended): for every existing device, a patch whose provided fields
neither exist on the device's model nor lie in its kind's rejected set
(including the empty patch; concretely `is_locked` for lights and thermostats,
`current_temp` for locks) still succeeds, the only field changed is
`last_updated` (set to `"Just now"`), and one `device_update` broadcast is
still delivered to every working channel. -/
theorem c10_hidden_fields_touch_only_timestamp (s : ManagerState) (i : String)
    (d : Device) (u : DeviceUpdate)
    (hl : lookupDevice s.devices i = some d) (hu : hiddenNoRejectPatch d u) :
    update_device s i u
      = ({ devices := setDevice s.devices i (d.withLastUpdated "Just now"),
           telemetry_history := s.telemetry_history,
           websocket_connections := s.websocket_connections.filter (fun c => c.working) },
         (s.websocket_connections.filter (fun c => c.working)).map
           (fun c => (c.id, WsMessage.device_update i (d.withLastUpdated "Just now"))),
         .ok (d.withLastUpdated "Just now")) := by
  have happ : applyFields d u = d.withLastUpdated "Just now" := by
    cases d with
    | light i2 n o lu b c =>
      obtain ⟨h1, h2, h3, h4, h5⟩ := hu
      simp [applyFields, Device.withLastUpdated, h1, h2, h3]
    | thermostat i2 n o lu tt ct =>
      obtain ⟨h1, h2, h3, h4, h5⟩ := hu
      simp [applyFields, Device.withLastUpdated, h1, h4, h5]
    | lock i2 n o lu il =>
      obtain ⟨h1, h2, h3, h4, h5⟩ := hu
      simp [applyFields, Device.withLastUpdated, h1, h5]
  have hc : crossKindCheck d u = false := by
    cases d with
    | light i2 n o lu b c =>
      obtain ⟨h1, h2, h3, h4, h5⟩ := hu
      simp [crossKindCheck, Device.device_type, h4, h5]
    | thermostat i2 n o lu tt ct =>
      obtain ⟨h1, h2, h3, h4, h5⟩ := hu
      simp [crossKindCheck, Device.device_type, h2, h3]
    | lock i2 n o lu il =>
      obtain ⟨h1, h2, h3, h4, h5⟩ := hu
      simp [crossKindCheck, Device.device_type, h2, h3, h4]
  rw [update_device, hl]
  dsimp only
  rw [if_neg (by simp [hc]), broadcast_eq, happ]

/-- C10 witness: the amended theorem applied to the demo light with an
`is_locked` patch (a field the light model does not have). -/
theorem c10_hidden_fields_witness :
    update_device demoState "living-room/light/ceiling-01" { is_locked := some true }
      = ({ devices := setDevice demoState.devices "living-room/light/ceiling-01"
             ((Device.light "living-room/light/ceiling-01" "Living Room Light"
                true "Just now" 65 "white").withLastUpdated "Just now"),
           telemetry_history := [], websocket_connections := [] },
         [],
         .ok ((Device.light "living-room/light/ceiling-01" "Living Room Light"
             true "Just now" 65 "white").withLastUpdated "Just now")) :=
  c10_hidden_fields_touch_only_timestamp demoState "living-room/light/ceiling-01"
    (Device.light "living-room/light/ceiling-01" "Living Room Light"
      true "Just now" 65 "white")
    { is_locked := some true } rfl ⟨rfl, rfl, rfl, rfl, rfl⟩

/-! ## Claim C4 -/

/-- C4 (as stated, counterexample): `"Living-Room/Light/X1"` has three
segments but contains the character `L`, which is outside the claimed
lowercase-alphanumeric-plus-hyphen/underscore character set; yet construction
succeeds (and normalizes), contradicting the claim that any identifier with a
disallowed character fails. -/
theorem c4_counterexample :
    (pySplit "Living-Room/Light/X1" '/').length = 3
    ∧ specAllowedChar 'L' = false
    ∧ 'L' ∈ "Living-Room/Light/X1".toList
    ∧ validate_device_id "Living-Room/Light/X1" = .ok "living-room/light/x1" :=
  ⟨by decide, by decide, by decide, rfl⟩

/-- C4 (amended): construction succeeds exactly when the candidate has three
`/`-separated segments each of which, after removing hyphens and underscores,
is a nonempty alphanumeric string (of either case); on success the result is
the lowercased, underscore-to-hyphen normalization; a wrong segment count or a
segment failing the character test fails with the `ValidationError` message
identifying that offense. -/
theorem c4_validate_characterization (v : String) :
    ((validate_device_id v).isOk = true
        ↔ ((pySplit v '/').length = 3 ∧ ∀ p ∈ pySplit v '/', strippedIsAlnum p = true))
    ∧ (∀ r, validate_device_id v = .ok r → r = pyReplaceUnderscore (pyToLower v))
    ∧ ((pySplit v '/').length ≠ 3 →
        validate_device_id v = .error "Device ID must follow format: location/type/instance")
    ∧ ((pySplit v '/').length = 3 →
        ¬(∀ p ∈ pySplit v '/', strippedIsAlnum p = true) →
        validate_device_id v
          = .error "Device ID parts must be alphanumeric with hyphens/underscores only") := by
  by_cases h3 : (pySplit v '/').length = 3
  · by_cases hall : (pySplit v '/').all strippedIsAlnum
    · have hv : validate_device_id v = .ok (pyReplaceUnderscore (pyToLower v)) := by
        simp [validate_device_id, h3, hall]
      refine ⟨?_, ?_, ?_, ?_⟩
      · exact iff_of_true (by simp [hv, Except.isOk, Except.toBool]) ⟨h3, List.all_eq_true.mp hall⟩
      · intro r hr
        rw [hv] at hr
        injection hr with h2
        exact h2.symm
      · intro hne; exact absurd h3 hne
      · intro _ hno; exact absurd (List.all_eq_true.mp hall) hno
    · have hv : validate_device_id v
          = .error "Device ID parts must be alphanumeric with hyphens/underscores only" := by
        simp [validate_device_id, h3, hall]
      refine ⟨?_, ?_, ?_, ?_⟩
      · exact iff_of_false (by simp [hv, Except.isOk, Except.toBool])
          (fun hx => hall (List.all_eq_true.mpr hx.2))
      · intro r hr; rw [hv] at hr; cases hr
      · intro hne; exact absurd h3 hne
      · intro _ _; exact hv
  · have hv : validate_device_id v
        = .error "Device ID must follow format: location/type/instance" := by
      simp [validate_device_id, h3]
    refine ⟨?_, ?_, ?_, ?_⟩
    · exact iff_of_false (by simp [hv, Except.isOk, Except.toBool]) (fun hx => h3 hx.1)
    · intro r hr; rw [hv] at hr; cases hr
    · intro _; exact hv
    · intro hc; exact absurd hc h3

/-- C4 witness: the amended theorem applied to a mixed-case identifier with an
underscore (normalized to lowercase-hyphenated) and to a two-segment
identifier (rejected with the format error). -/
theorem c4_validate_witness :
    "bed-room/light/lamp-01" = pyReplaceUnderscore (pyToLower "Bed_Room/light/Lamp-01")
    ∧ validate_device_id "x/y"
        = .error "Device ID must follow format: location/type/instance" :=
  ⟨(c4_validate_characterization "Bed_Room/light/Lamp-01").2.1 "bed-room/light/lamp-01" rfl,
   (c4_validate_characterization "x/y").2.2.1 (by decide)⟩

/-! ## Claim C5 -/

/-- One optional field passes its range check exactly when every provided
value lies within the inclusive bounds. -/
theorem checkBound_isOk_iff (n : String) (lo hi : Int) (o : Option Int) :
    (checkBound n lo hi o).isOk = true ↔ ∀ x ∈ o, lo ≤ x ∧ x ≤ hi := by
  cases o with
  | none => exact iff_of_true rfl (by intro x hx; cases hx)
  | some v =>
    by_cases h1 : v < lo
    · refine iff_of_false ?_ ?_
      · simp [checkBound, h1, Except.isOk, Except.toBool]
      · intro hall
        have h := hall v rfl
        omega
    · by_cases h2 : hi < v
      · refine iff_of_false ?_ ?_
        · simp [checkBound, h1, h2, Except.isOk, Except.toBool]
        · intro hall
          have h := hall v rfl
          omega
      · refine iff_of_true ?_ ?_
        · simp [checkBound, h1, h2, Except.isOk, Except.toBool]
        · intro x hx
          rw [Option.mem_def] at hx
          injection hx with h3
          omega

/-- A failing range check reports the field name, the violated limit, and the
offending value. -/
theorem checkBound_error_spec (n : String) (lo hi : Int) (o : Option Int)
    (e : ValidationErr) (h : checkBound n lo hi o = .error e) :
    o = some e.value ∧ e.field = n
      ∧ ((e.value < lo ∧ e.limit = lo) ∨ (hi < e.value ∧ e.limit = hi)) := by
  cases o with
  | none => exact Except.noConfusion h
  | some v =>
    by_cases h1 : v < lo
    · have hv : checkBound n lo hi (some v) = .error ⟨n, lo, v⟩ := by
        simp [checkBound, h1]
      rw [hv] at h
      injection h with h2
      subst h2
      exact ⟨rfl, rfl, Or.inl ⟨h1, rfl⟩⟩
    · by_cases h2 : hi < v
      · have hv : checkBound n lo hi (some v) = .error ⟨n, hi, v⟩ := by
          simp [checkBound, h1, h2]
        rw [hv] at h
        injection h with h3
        subst h3
        exact ⟨rfl, rfl, Or.inr ⟨h2, rfl⟩⟩
      · have hv : checkBound n lo hi (some v) = .ok () := by
          simp [checkBound, h1, h2]
        rw [hv] at h
        exact Except.noConfusion h

/-- The request-body validation passes exactly when every provided numeric
field lies within its documented inclusive bound. -/
theorem validateDeviceUpdate_isOk_iff (u : DeviceUpdate) :
    (validateDeviceUpdate u).isOk = true
      ↔ ((∀ x ∈ u.brightness, 0 ≤ x ∧ x ≤ 100)
        ∧ (∀ x ∈ u.target_temp, 16 ≤ x ∧ x ≤ 30)
        ∧ (∀ x ∈ u.current_temp, -20 ≤ x ∧ x ≤ 50)) := by
  unfold validateDeviceUpdate
  cases hb : checkBound "brightness" 0 100 u.brightness with
  | error e =>
    refine iff_of_false (by simp [Except.isOk, Except.toBool]) (fun hx => ?_)
    have h := (checkBound_isOk_iff "brightness" 0 100 u.brightness).mpr hx.1
    rw [hb] at h
    exact Bool.noConfusion h
  | ok a =>
    have hbt : ∀ x ∈ u.brightness, 0 ≤ x ∧ x ≤ 100 :=
      (checkBound_isOk_iff _ _ _ _).mp (by rw [hb]; rfl)
    cases ht : checkBound "target_temp" 16 30 u.target_temp with
    | error e =>
      refine iff_of_false (by simp [Except.isOk, Except.toBool]) (fun hx => ?_)
      have h := (checkBound_isOk_iff "target_temp" 16 30 u.target_temp).mpr hx.2.1
      rw [ht] at h
      exact Bool.noConfusion h
    | ok b =>
      have htt : ∀ x ∈ u.target_temp, 16 ≤ x ∧ x ≤ 30 :=
        (checkBound_isOk_iff _ _ _ _).mp (by rw [ht]; rfl)
      cases hc : checkBound "current_temp" (-20) 50 u.current_temp with
      | error e =>
        refine iff_of_false (by simp [Except.isOk, Except.toBool]) (fun hx => ?_)
        have h := (checkBound_isOk_iff "current_temp" (-20) 50 u.current_temp).mpr hx.2.2
        rw [hc] at h
        exact Bool.noConfusion h
      | ok c =>
        have hct : ∀ x ∈ u.current_temp, -20 ≤ x ∧ x ≤ 50 :=
          (checkBound_isOk_iff _ _ _ _).mp (by rw [hc]; rfl)
        exact iff_of_true rfl ⟨hbt, htt, hct⟩

/-- A successful request-body validation returns the patch unchanged. -/
theorem validateDeviceUpdate_ok_eq (u u1 : DeviceUpdate)
    (h : validateDeviceUpdate u = .ok u1) : u1 = u := by
  unfold validateDeviceUpdate at h
  split at h
  · exact Except.noConfusion h
  · split at h
    · exact Except.noConfusion h
    · split at h
      · exact Except.noConfusion h
      · injection h with h2
        exact h2.symm

/-- A failing request-body validation reports one of the three numeric fields
together with its violated limit and the submitted value. -/
theorem validateDeviceUpdate_error_spec (u : DeviceUpdate) (e : ValidationErr)
    (h : validateDeviceUpdate u = .error e) :
    (u.brightness = some e.value ∧ e.field = "brightness"
      ∧ ((e.value < 0 ∧ e.limit = 0) ∨ (100 < e.value ∧ e.limit = 100)))
    ∨ (u.target_temp = some e.value ∧ e.field = "target_temp"
      ∧ ((e.value < 16 ∧ e.limit = 16) ∨ (30 < e.value ∧ e.limit = 30)))
    ∨ (u.current_temp = some e.value ∧ e.field = "current_temp"
      ∧ ((e.value < -20 ∧ e.limit = -20) ∨ (50 < e.value ∧ e.limit = 50))) := by
  unfold validateDeviceUpdate at h
  cases hb : checkBound "brightness" 0 100 u.brightness with
  | error e2 =>
    rw [hb] at h
    dsimp only at h
    injection h with h2
    subst h2
    exact Or.inl (checkBound_error_spec _ _ _ _ _ hb)
  | ok a =>
    rw [hb] at h
    dsimp only at h
    cases ht : checkBound "target_temp" 16 30 u.target_temp with
    | error e2 =>
      rw [ht] at h
      dsimp only at h
      injection h with h2
      subst h2
      exact Or.inr (Or.inl (checkBound_error_spec _ _ _ _ _ ht))
    | ok b =>
      rw [ht] at h
      dsimp only at h
      cases hc : checkBound "current_temp" (-20) 50 u.current_temp with
      | error e2 =>
        rw [hc] at h
        dsimp only at h
        injection h with h2
        subst h2
        exact Or.inr (Or.inr (checkBound_error_spec _ _ _ _ _ hc))
      | ok c =>
        rw [hc] at h
        exact Except.noConfusion h

/-- C5: numeric range checking on the patch path.  (1) The request body is
accepted exactly when every provided numeric field is within its documented
inclusive bound (so both exact bounds are accepted and one unit outside is
rejected); (2) a rejection names the field, the violated bound, and the
offending value; (3) a rejected patch leaves the manager state entirely
unchanged with no broadcast; (4) a successful patch stores exactly the
provided in-bounds values. -/
theorem c5_numeric_bounds :
    (∀ u : DeviceUpdate, (validateDeviceUpdate u).isOk = true
        ↔ ((∀ x ∈ u.brightness, 0 ≤ x ∧ x ≤ 100)
          ∧ (∀ x ∈ u.target_temp, 16 ≤ x ∧ x ≤ 30)
          ∧ (∀ x ∈ u.current_temp, -20 ≤ x ∧ x ≤ 50)))
    ∧ (∀ u e, validateDeviceUpdate u = .error e →
        (u.brightness = some e.value ∧ e.field = "brightness"
          ∧ ((e.value < 0 ∧ e.limit = 0) ∨ (100 < e.value ∧ e.limit = 100)))
        ∨ (u.target_temp = some e.value ∧ e.field = "target_temp"
          ∧ ((e.value < 16 ∧ e.limit = 16) ∨ (30 < e.value ∧ e.limit = 30)))
        ∨ (u.current_temp = some e.value ∧ e.field = "current_temp"
          ∧ ((e.value < -20 ∧ e.limit = -20) ∨ (50 < e.value ∧ e.limit = 50))))
    ∧ (∀ (s : ManagerState) (i : String) (u : DeviceUpdate) (e : ValidationErr),
        validateDeviceUpdate u = .error e →
        patchDevice s i u = (s, [], .error (.validation e)))
    ∧ (∀ (s : ManagerState) (i : String) (u : DeviceUpdate) (s1 : ManagerState)
        (log : List (Nat × WsMessage)) (d : Device),
        patchDevice s i u = (s1, log, .ok d) →
        ((∀ b ∈ u.brightness, (0 ≤ b ∧ b ≤ 100) ∧ d.brightnessField = some b)
        ∧ (∀ t ∈ u.target_temp, (16 ≤ t ∧ t ≤ 30) ∧ d.targetTempField = some t)
        ∧ (∀ c ∈ u.current_temp, (-20 ≤ c ∧ c ≤ 50)
            ∧ (d.currentTempField = some c ∨ d.currentTempField = none)))) := by
  refine ⟨validateDeviceUpdate_isOk_iff, validateDeviceUpdate_error_spec, ?_, ?_⟩
  · intro s i u e hv
    unfold patchDevice
    rw [hv]
  · intro s i u s1 log d h
    unfold patchDevice at h
    cases hv : validateDeviceUpdate u with
    | error e =>
      rw [hv] at h
      have h3 := congrArg (fun p => p.2.2) h
      dsimp only at h3
      exact Except.noConfusion h3
    | ok u1 =>
      have hu1 : u1 = u := validateDeviceUpdate_ok_eq u u1 hv
      subst hu1
      rw [hv] at h
      dsimp only at h
      have h3 := congrArg (fun p => p.2.2) h
      dsimp only at h3
      have hup : (update_device s i u1).2.2 = .ok d := by
        cases hud : (update_device s i u1).2.2 with
        | error e2 =>
          rw [hud] at h3
          exact Except.noConfusion h3
        | ok d2 =>
          rw [hud] at h3
          simp only [Except.mapError] at h3
          injection h3 with h4
          rw [h4]
      obtain ⟨d0, hl, hc, hd, hs1, hlog⟩ :=
        update_device_ok_spec s i u1 (update_device s i u1).1
          (update_device s i u1).2.1 d (by rw [← hup])
      have hb := (validateDeviceUpdate_isOk_iff u1).mp (by rw [hv]; rfl)
      refine ⟨?_, ?_, ?_⟩
      · intro b hbmem
        refine ⟨hb.1 b hbmem, ?_⟩
        rw [Option.mem_def] at hbmem
        cases d0 with
        | light i2 n o lu b0 c0 =>
          rw [hd]
          simp [applyFields, Device.brightnessField, hbmem]
        | thermostat i2 n o lu t0 c0 =>
          exfalso
          simp [crossKindCheck, Device.device_type, hbmem] at hc
        | lock i2 n o lu il =>
          exfalso
          simp [crossKindCheck, Device.device_type, hbmem] at hc
      · intro t htmem
        refine ⟨hb.2.1 t htmem, ?_⟩
        rw [Option.mem_def] at htmem
        cases d0 with
        | light i2 n o lu b0 c0 =>
          exfalso
          simp [crossKindCheck, Device.device_type, htmem] at hc
        | thermostat i2 n o lu t0 c0 =>
          rw [hd]
          simp [applyFields, Device.targetTempField, htmem]
        | lock i2 n o lu il =>
          exfalso
          simp [crossKindCheck, Device.device_type, htmem] at hc
      · intro c hcmem
        refine ⟨hb.2.2 c hcmem, ?_⟩
        rw [Option.mem_def] at hcmem
        cases d0 with
        | light i2 n o lu b0 c0 =>
          exfalso
          simp [crossKindCheck, Device.device_type, hcmem] at hc
        | thermostat i2 n o lu t0 c0 =>
          left
          rw [hd]
          simp [applyFields, Device.currentTempField, hcmem]
        | lock i2 n o lu il =>
          right
          rw [hd]
          simp [applyFields, Device.currentTempField]

/-- C5 witness: both exact bounds accepted, one unit outside rejected with a
structured error, a rejected patch returns the state unchanged, and a
successful at-bound patch stores the value. -/
theorem c5_numeric_bounds_witness :
    (validateDeviceUpdate { brightness := some 100 }).isOk = true
    ∧ (validateDeviceUpdate { target_temp := some 16 }).isOk = true
    ∧ validateDeviceUpdate { brightness := some 101 } = .error ⟨"brightness", 100, 101⟩
    ∧ validateDeviceUpdate { current_temp := some (-21) } = .error ⟨"current_temp", -20, -21⟩
    ∧ patchDevice demoState "living-room/light/ceiling-01" { brightness := some (-1) }
        = (demoState, [], .error (.validation ⟨"brightness", 0, -1⟩))
    ∧ (Device.light "living-room/light/ceiling-01" "Living Room Light"
        true "Just now" 0 "white").brightnessField = some 0 := by
  refine ⟨?_, ?_, rfl, rfl, ?_, ?_⟩
  · refine (c5_numeric_bounds.1 { brightness := some 100 }).mpr ⟨?_, by simp, by simp⟩
    intro x hx
    rw [Option.mem_def] at hx
    injection hx with h
    omega
  · refine (c5_numeric_bounds.1 { target_temp := some 16 }).mpr ⟨by simp, ?_, by simp⟩
    intro x hx
    rw [Option.mem_def] at hx
    injection hx with h
    omega
  · exact c5_numeric_bounds.2.2.1 demoState "living-room/light/ceiling-01"
      { brightness := some (-1) } ⟨"brightness", 0, -1⟩ rfl
  · exact ((c5_numeric_bounds.2.2.2 demoState "living-room/light/ceiling-01"
      { brightness := some 0 } _ _
      (Device.light "living-room/light/ceiling-01" "Living Room Light"
        true "Just now" 0 "white") rfl).1 0 rfl).2

/-! ## Claim C8 -/

/-- Round-half-to-even of `total / n` is a nearest integer to the exact mean:
the distance `|pyRoundHalfEven total n - total / n|` is at most one half. -/
theorem pyRound_nearest (total : Int) (n : Nat) (hn : 0 < n) :
    2 * (pyRoundHalfEven total n * (n : Int) - total) ≤ (n : Int)
    ∧ 2 * (total - pyRoundHalfEven total n * (n : Int)) ≤ (n : Int) := by
  have hd : (0 : Int) < (n : Int) := by exact_mod_cast hn
  have hsum : (n : Int) * Int.ediv total (n : Int) + Int.emod total (n : Int) = total :=
    Int.ediv_add_emod total (n : Int)
  have hr0 : 0 ≤ Int.emod total (n : Int) := Int.emod_nonneg total (by omega)
  have hr1 : Int.emod total (n : Int) < (n : Int) := Int.emod_lt_of_pos total hd
  unfold pyRoundHalfEven
  split_ifs with h1 h2 h3 <;> constructor <;> nlinarith [hsum, hr0, hr1]

/-- C8: the statistics derivation.  (1) With no thermostats the temperature
statistic is 0; (2) with thermostats it is a nearest integer to the arithmetic
mean of the current temperatures; (3) the reported temperature string carries
exactly that value; (4) the security statistic reads "All Locked" exactly when
every lock is locked, vacuously when no locks exist. -/
theorem c8_stats_derivation (s : ManagerState) :
    (thermostat_current_temps s = [] → avg_temp s = 0)
    ∧ (thermostat_current_temps s ≠ [] →
        2 * (avg_temp s * ((thermostat_current_temps s).length : Int)
              - (thermostat_current_temps s).sum)
            ≤ ((thermostat_current_temps s).length : Int)
        ∧ 2 * ((thermostat_current_temps s).sum
              - avg_temp s * ((thermostat_current_temps s).length : Int))
            ≤ ((thermostat_current_temps s).length : Int))
    ∧ (get_system_stats s).temperature = toString (avg_temp s) ++ "°C Average"
    ∧ ((get_system_stats s).security = "All Locked"
        ↔ ∀ d ∈ get_devices_by_type s .lock, d.lockedFlag = true) := by
  refine ⟨?_, ?_, rfl, ?_⟩
  · intro h
    simp [avg_temp, h]
  · intro h
    have hn : 0 < (thermostat_current_temps s).length := List.length_pos.mpr h
    have hne : ¬((thermostat_current_temps s).isEmpty = true) := by
      rw [List.isEmpty_iff]
      exact h
    have havg : avg_temp s
        = pyRoundHalfEven (thermostat_current_temps s).sum
            (thermostat_current_temps s).length := by
      simp [avg_temp, hne]
    rw [havg]
    exact pyRound_nearest _ _ hn
  · by_cases hemp : (get_devices_by_type s .lock).isEmpty
    · have hsec : (get_system_stats s).security = "All Locked" := by
        simp [get_system_stats, hemp]
      have hnil : get_devices_by_type s .lock = [] := by
        simpa [List.isEmpty_iff] using hemp
      refine iff_of_true hsec ?_
      rw [hnil]
      intro d hd
      cases hd
    · by_cases hall : (get_devices_by_type s .lock).all Device.lockedFlag
      · have hsec : (get_system_stats s).security = "All Locked" := by
          simp [get_system_stats, hemp, hall]
        exact iff_of_true hsec (List.all_eq_true.mp hall)
      · have hsec : (get_system_stats s).security = "Some Unlocked" := by
          simp [get_system_stats, hemp, hall]
        refine iff_of_false ?_ (fun hx => hall (List.all_eq_true.mpr hx))
        rw [hsec]
        decide

/-- C8 witness: on the demo seed (thermostats at 21 and 19) the statistic is
20, a nearest integer to the mean, and the single locked lock yields
"All Locked". -/
theorem c8_stats_witness :
    avg_temp demoState = 20
    ∧ 2 * (avg_temp demoState * ((thermostat_current_temps demoState).length : Int)
          - (thermostat_current_temps demoState).sum)
        ≤ ((thermostat_current_temps demoState).length : Int)
    ∧ (get_system_stats demoState).security = "All Locked" := by
  refine ⟨rfl, ?_, ?_⟩
  · exact ((c8_stats_derivation demoState).2.1 (by decide)).1
  · refine ((c8_stats_derivation demoState).2.2.2).mpr ?_
    intro d hd
    rw [show get_devices_by_type demoState .lock
        = [Device.lock "living-room/lock/front-door-01" "Front Door Lock"
            true "Just now" true] from rfl] at hd
    cases hd with
    | head => rfl
    | tail _ h2 => cases h2

/-! ## Claim C2 -/

/-- One simulation pass maps every registry entry through `tickDevice`,
writing the stepped device back in place. -/
theorem tickFold_devices (devs : List (String × Device)) (tel : List TelemetryData)
    (conns : List Channel) :
    (tickFold devs tel conns).1 = devs.map (fun p => (p.1, tickDevice p.2)) := by
  induction devs generalizing tel conns with
  | nil => rfl
  | cons p rest ih =>
    obtain ⟨k, d⟩ := p
    by_cases h : tickDevice d = d
    · simp [tickFold, h, ih]
    · simp [tickFold, h, ih]

/-- C2 (as stated, counterexample): the telemetry-ingestion endpoint commits a
state change (`current_temp = 999`) that the validated mutation path of the
PATCH endpoint rejects outright, so ingestion does not route through the same
validated mutation entry point. -/
theorem c2_counterexample :
    lookupDevice (ingest_telemetry demoState
        ⟨"living-room/thermostat/wall-01", "temperature", 999, "celsius"⟩).1.devices
        "living-room/thermostat/wall-01"
      = some (Device.thermostat "living-room/thermostat/wall-01" "Smart Thermostat"
          true "Just now" 22 999)
    ∧ validateDeviceUpdate { current_temp := some 999 }
        = .error ⟨"current_temp", 50, 999⟩
    ∧ (patchDevice demoState "living-room/thermostat/wall-01"
        { current_temp := some 999 }).2.2
        = .error (.validation ⟨"current_temp", 50, 999⟩) :=
  ⟨rfl, rfl, rfl⟩

/-- C2 (amended): only the client-facing PATCH path routes through the
validated `update_device`; the telemetry-ingestion endpoint writes
`current_temp = int(value)` and `last_updated` directly on a thermostat for
any value (no range validation) and broadcasts itself, and the simulation tick
likewise writes the stepped devices directly into the registry. -/
theorem c2_direct_state_writes :
    (∀ (s : ManagerState) (t : TelemetryData) (i2 n : String) (o : Bool)
        (lu : String) (tt ct : Int),
        lookupDevice s.devices t.device_id = some (.thermostat i2 n o lu tt ct) →
        t.sensor_type = "temperature" →
        lookupDevice (ingest_telemetry s t).1.devices t.device_id
            = some (.thermostat i2 n o "Just now" tt (pyInt t.value))
        ∧ (ingest_telemetry s t).2.1
            = (s.websocket_connections.filter (fun c => c.working)).map
                (fun c => (c.id, WsMessage.device_update t.device_id
                    (.thermostat i2 n o "Just now" tt (pyInt t.value))))
        ∧ (ingest_telemetry s t).2.2 = .ok "success"
        ∧ (ingest_telemetry s t).1.telemetry_history = s.telemetry_history ++ [t])
    ∧ (∀ s : ManagerState, (simulate_tick s).1.devices
        = s.devices.map (fun p => (p.1, tickDevice p.2)))
    ∧ (∀ (s : ManagerState) (i : String) (u u1 : DeviceUpdate),
        validateDeviceUpdate u = .ok u1 →
        patchDevice s i u
          = ((update_device s i u1).1, (update_device s i u1).2.1,
             (update_device s i u1).2.2.mapError PatchError.http)) := by
  refine ⟨?_, ?_, ?_⟩
  · intro s t i2 n o lu tt ct hl ht
    have heq : ingest_telemetry s t
        = ({ devices := setDevice s.devices t.device_id
               (.thermostat i2 n o "Just now" tt (pyInt t.value)),
             telemetry_history := s.telemetry_history ++ [t],
             websocket_connections :=
               s.websocket_connections.filter (fun c => c.working) },
           (s.websocket_connections.filter (fun c => c.working)).map
             (fun c => (c.id, WsMessage.device_update t.device_id
                 (.thermostat i2 n o "Just now" tt (pyInt t.value)))),
           .ok "success") := by
      rw [ingest_telemetry, hl]
      dsimp only
      rw [if_pos ht, broadcast_eq]
    rw [heq]
    refine ⟨?_, rfl, rfl, rfl⟩
    exact lookupDevice_setDevice s.devices t.device_id _ (by simp [hl])
  · intro s
    exact tickFold_devices s.devices s.telemetry_history s.websocket_connections
  · intro s i u u1 hv
    rw [patchDevice, hv]

/-- C2 witness: the amended theorem applied to the demo thermostat with a
telemetry reading of 25 degrees. -/
theorem c2_direct_state_writes_witness :
    lookupDevice (ingest_telemetry demoState
        ⟨"living-room/thermostat/wall-01", "temperature", 25, "celsius"⟩).1.devices
        "living-room/thermostat/wall-01"
      = some (Device.thermostat "living-room/thermostat/wall-01" "Smart Thermostat"
          true "Just now" 22 (pyInt 25))
    ∧ (ingest_telemetry demoState
        ⟨"living-room/thermostat/wall-01", "temperature", 25, "celsius"⟩).2.2
      = .ok "success" := by
  have h := c2_direct_state_writes.1 demoState
    ⟨"living-room/thermostat/wall-01", "temperature", 25, "celsius"⟩
    "living-room/thermostat/wall-01" "Smart Thermostat" true "Just now" 22 21 rfl rfl
  exact ⟨h.1, h.2.2.1⟩

/-! ## Claim C6 -/

/-- A channel that no message in the log targets receives nothing. -/
theorem channelMsgs_eq_nil : ∀ (log : List (Nat × WsMessage)) (cid : Nat),
    (∀ e ∈ log, e.1 ≠ cid) → channelMsgs log cid = [] := by
  intro log cid
  induction log with
  | nil => intro _; rfl
  | cons e rest ih =>
    intro h
    have he : ¬(e.1 = cid) := h e (List.mem_cons_self e rest)
    have hrest := ih (fun x hx => h x (List.mem_cons_of_mem e hx))
    simp only [channelMsgs, List.filter_cons] at hrest ⊢
    rw [if_neg (by simpa using he)]
    exact hrest

/-- Per-channel messages split over an append of delivery logs. -/
theorem channelMsgs_append (l1 l2 : List (Nat × WsMessage)) (cid : Nat) :
    channelMsgs (l1 ++ l2) cid = channelMsgs l1 cid ++ channelMsgs l2 cid := by
  simp [channelMsgs, List.filter_append]

/-- Membership in channel ids is monotone under channel-list inclusion. -/
theorem connIds_subset {l1 l2 : List Channel} (h : ∀ c ∈ l1, c ∈ l2) :
    ∀ x ∈ connIds l1, x ∈ connIds l2 := by
  intro x hx
  simp only [connIds, List.mem_map] at hx ⊢
  obtain ⟨c, hc, rfl⟩ := hx
  exact ⟨c, h c hc, rfl⟩

/-- A broadcast keeps only channels that were already registered and delivers
only to registered channel ids. -/
theorem broadcast_targets (conns : List Channel) (i : String) (d : Device) :
    (∀ c ∈ (broadcast_device_update conns i d).1, c ∈ conns)
    ∧ (∀ e ∈ (broadcast_device_update conns i d).2, e.1 ∈ connIds conns) := by
  rw [broadcast_eq]
  constructor
  · intro c hc
    exact List.mem_of_mem_filter hc
  · intro e he
    rw [List.mem_map] at he
    obtain ⟨c, hc, rfl⟩ := he
    simp only [connIds, List.mem_map]
    exact ⟨c, List.mem_of_mem_filter hc, rfl⟩

/-- `update_device` never adds channels and delivers only to registered ids. -/
theorem update_device_targets (s : ManagerState) (i : String) (u : DeviceUpdate) :
    (∀ c ∈ (update_device s i u).1.websocket_connections, c ∈ s.websocket_connections)
    ∧ (∀ e ∈ (update_device s i u).2.1, e.1 ∈ connIds s.websocket_connections) := by
  rw [update_device]
  cases lookupDevice s.devices i with
  | none =>
    exact ⟨fun c hc => hc, fun e he => absurd he (List.not_mem_nil e)⟩
  | some d0 =>
    dsimp only
    by_cases hc : crossKindCheck d0 u
    · rw [if_pos hc]
      exact ⟨fun c h => h, fun e he => absurd he (List.not_mem_nil e)⟩
    · rw [if_neg hc]
      exact broadcast_targets s.websocket_connections i (applyFields d0 u)

/-- The PATCH path never adds channels and delivers only to registered ids. -/
theorem patch_targets (s : ManagerState) (i : String) (u : DeviceUpdate) :
    (∀ c ∈ (patchDevice s i u).1.websocket_connections, c ∈ s.websocket_connections)
    ∧ (∀ e ∈ (patchDevice s i u).2.1, e.1 ∈ connIds s.websocket_connections) := by
  rw [patchDevice]
  cases validateDeviceUpdate u with
  | error e =>
    exact ⟨fun c hc => hc, fun e2 he => absurd he (List.not_mem_nil e2)⟩
  | ok u1 =>
    dsimp only
    exact update_device_targets s i u1

/-- Telemetry ingestion never adds channels and delivers only to registered
ids. -/
theorem ingest_targets (s : ManagerState) (t : TelemetryData) :
    (∀ c ∈ (ingest_telemetry s t).1.websocket_connections, c ∈ s.websocket_connections)
    ∧ (∀ e ∈ (ingest_telemetry s t).2.1, e.1 ∈ connIds s.websocket_connections) := by
  rw [ingest_telemetry]
  cases lookupDevice s.devices t.device_id with
  | none =>
    exact ⟨fun c hc => hc, fun e he => absurd he (List.not_mem_nil e)⟩
  | some d =>
    dsimp only
    cases d with
    | light i2 n o lu b c =>
      exact ⟨fun c hc => hc, fun e he => absurd he (List.not_mem_nil e)⟩
    | lock i2 n o lu il =>
      exact ⟨fun c hc => hc, fun e he => absurd he (List.not_mem_nil e)⟩
    | thermostat i2 n o lu tt ct =>
      dsimp only
      by_cases ht : t.sensor_type = "temperature"
      · rw [if_pos ht]
        exact broadcast_targets s.websocket_connections t.device_id
          (.thermostat i2 n o "Just now" tt (pyInt t.value))
      · rw [if_neg ht]
        exact ⟨fun c hc => hc, fun e he => absurd he (List.not_mem_nil e)⟩

/-- One simulation pass never adds channels and delivers only to registered
ids. -/
theorem tickFold_targets (devs : List (String × Device)) (tel : List TelemetryData)
    (conns : List Channel) :
    (∀ c ∈ (tickFold devs tel conns).2.2.1, c ∈ conns)
    ∧ (∀ e ∈ (tickFold devs tel conns).2.2.2, e.1 ∈ connIds conns) := by
  induction devs generalizing tel conns with
  | nil => exact ⟨fun c hc => hc, fun e he => absurd he (List.not_mem_nil e)⟩
  | cons p rest ih =>
    obtain ⟨k, d⟩ := p
    by_cases h : tickDevice d = d
    · constructor
      · intro c hc
        rw [show (tickFold ((k, d) :: rest) tel conns).2.2.1
            = (tickFold rest tel conns).2.2.1 from by simp [tickFold, h]] at hc
        exact (ih tel conns).1 c hc
      · intro e he
        rw [show (tickFold ((k, d) :: rest) tel conns).2.2.2
            = (tickFold rest tel conns).2.2.2 from by simp [tickFold, h]] at he
        exact (ih tel conns).2 e he
    · have hb := broadcast_targets conns k (tickDevice d)
      have hrec := ih
        (tel ++ [⟨k, "temperature",
          (((tickDevice d).currentTempField).getD 0 : Rat), "celsius"⟩])
        (broadcast_device_update conns k (tickDevice d)).1
      constructor
      · intro c hc
        rw [show (tickFold ((k, d) :: rest) tel conns).2.2.1
            = (tickFold rest (tel ++ [⟨k, "temperature",
                (((tickDevice d).currentTempField).getD 0 : Rat), "celsius"⟩])
                (broadcast_device_update conns k (tickDevice d)).1).2.2.1
            from by simp [tickFold, h]] at hc
        exact hb.1 c (hrec.1 c hc)
      · intro e he
        rw [show (tickFold ((k, d) :: rest) tel conns).2.2.2
            = (broadcast_device_update conns k (tickDevice d)).2
              ++ (tickFold rest (tel ++ [⟨k, "temperature",
                  (((tickDevice d).currentTempField).getD 0 : Rat), "celsius"⟩])
                  (broadcast_device_update conns k (tickDevice d)).1).2.2.2
            from by simp [tickFold, h]] at he
        rcases List.mem_append.mp he with he1 | he2
        · exact hb.2 e he1
        · exact connIds_subset hb.1 e.1 (hrec.2 e he2)

/-- The simulation pass wrapper of `tickFold_targets`. -/
theorem simulate_tick_targets (s : ManagerState) :
    (∀ c ∈ (simulate_tick s).1.websocket_connections, c ∈ s.websocket_connections)
    ∧ (∀ e ∈ (simulate_tick s).2, e.1 ∈ connIds s.websocket_connections) :=
  tickFold_targets s.devices s.telemetry_history s.websocket_connections

/-- A channel id not registered before a non-connect step receives nothing
from the step and remains unregistered. -/
theorem step_preserves_absent (s : ManagerState) (a : TraceAction) (cid : Nat)
    (h : cid ∉ connIds s.websocket_connections)
    (hconn : ∀ c ∈ (stepAction s a).1.websocket_connections, c ∈ s.websocket_connections)
    (hlog : ∀ e ∈ (stepAction s a).2, e.1 ∈ connIds s.websocket_connections) :
    channelMsgs (stepAction s a).2 cid = []
    ∧ cid ∉ connIds (stepAction s a).1.websocket_connections := by
  constructor
  · apply channelMsgs_eq_nil
    intro e he heq
    exact h (heq ▸ hlog e he)
  · intro hx
    exact h (connIds_subset hconn cid hx)

/-- In any trace, a channel id not registered at the start receives either
nothing, or a full snapshot before anything else. -/
theorem trace_snapshot_first (acts : List TraceAction) (s : ManagerState) (cid : Nat)
    (h : cid ∉ connIds s.websocket_connections) :
    channelMsgs (runTrace s acts).2 cid = []
    ∨ ∃ ds rest2, channelMsgs (runTrace s acts).2 cid
        = WsMessage.initial_state ds :: rest2 := by
  induction acts generalizing s with
  | nil => exact Or.inl rfl
  | cons a rest ih =>
    have hsplit : channelMsgs (runTrace s (a :: rest)).2 cid
        = channelMsgs (stepAction s a).2 cid
          ++ channelMsgs (runTrace (stepAction s a).1 rest).2 cid := by
      simp only [runTrace]
      exact channelMsgs_append _ _ cid
    cases a with
    | connect cid2 =>
      by_cases hc : cid2 = cid
      · subst hc
        rw [hsplit]
        refine Or.inr ⟨get_all_devices
            { s with websocket_connections := s.websocket_connections ++ [⟨cid2, true⟩] },
          channelMsgs (runTrace (stepAction s (TraceAction.connect cid2)).1 rest).2 cid2, ?_⟩
        simp [stepAction, channelMsgs]
      · have h1 : cid ∉ connIds (stepAction s (TraceAction.connect cid2)).1.websocket_connections := by
          intro hx
          simp only [stepAction, connIds, List.map_append, List.mem_append] at hx
          rcases hx with hx | hx
          · exact h (by simpa [connIds] using hx)
          · simp at hx
            exact hc hx.symm
        have hstep : channelMsgs (stepAction s (TraceAction.connect cid2)).2 cid = [] := by
          apply channelMsgs_eq_nil
          intro e he
          simp only [stepAction, List.mem_singleton] at he
          subst he
          exact hc
        rw [hsplit, hstep, List.nil_append]
        exact ih _ h1
    | patchReq i u =>
      have ht := patch_targets s i u
      obtain ⟨hstep, h1⟩ := step_preserves_absent s (.patchReq i u) cid h ht.1 ht.2
      rw [hsplit, hstep, List.nil_append]
      exact ih _ h1
    | ingestReq t =>
      have ht := ingest_targets s t
      obtain ⟨hstep, h1⟩ := step_preserves_absent s (.ingestReq t) cid h ht.1 ht.2
      rw [hsplit, hstep, List.nil_append]
      exact ih _ h1
    | tick =>
      have ht := simulate_tick_targets s
      obtain ⟨hstep, h1⟩ := step_preserves_absent s .tick cid h ht.1 ht.2
      rw [hsplit, hstep, List.nil_append]
      exact ih _ h1

/-- C6: starting from a state with no subscribers, in every interleaving of
connects, PATCH requests, telemetry ingestions and simulation ticks, every
channel either receives nothing or receives a full `initial_state` snapshot
strictly before any other message — never a `device_update` before its
baseline snapshot.  (Connecting and initiating the snapshot send are one
atomic step, as in the source, where no `await` separates the registration
from the snapshot send.) -/
theorem c6_snapshot_before_deltas (devs : List (String × Device))
    (tel : List TelemetryData) (acts : List TraceAction) (cid : Nat) :
    channelMsgs (runTrace ⟨devs, tel, []⟩ acts).2 cid = []
    ∨ ∃ ds rest2, channelMsgs (runTrace ⟨devs, tel, []⟩ acts).2 cid
        = WsMessage.initial_state ds :: rest2 :=
  trace_snapshot_first acts ⟨devs, tel, []⟩ cid (by simp [connIds])
